import Mathlib

set_option maxRecDepth 8000

/-
Shallow embedding of `arch/arm64/kvm/handle_exit.c` (arm64 KVM guest-exit
dispatch, from a nested-virtualization tree).

Machine integers are modelled as `Nat`, with an explicit `% 2^64` where the
C code operates on a wrapping 64-bit quantity (the guest program counter).
Return codes of handlers are `Int` (C `int`).

External collaborators — the PSCI firmware-call service, the nested-trap
helpers `handle_hvc_nested` / `handle_wfx_nested`, the condition-code check
`kvm_condition_valid`, and the coprocessor/system-register and memory-abort
handlers reached through the exit table — live outside this file's source
and are modelled as oracles collected in an `Env` record.  Every externally
visible side effect (fault injections, trace events, statistic-free calls
such as `kvm_vcpu_block`, invocations of external collaborators) is recorded
in an event log, so theorems can state which collaborators ran and in which
order.  `nested_virt_in_use` and `forward_nv_traps` are predicates of the
wider tree, modelled as abstract boolean inputs on the vcpu state.
-/

namespace HandleExit

/-- 2^64, the modulus of the guest's 64-bit registers. -/
def U64 : Nat := 18446744073709551616

/-- ESR_ELx_EC: exception-class field of the syndrome, bits [31:26]. -/
def ESR_ELx_EC (esr : Nat) : Nat := (esr / 2 ^ 26) % 64

def ESR_ELx_EC_WFx : Nat := 0x01
def ESR_ELx_EC_CP15_32 : Nat := 0x03
def ESR_ELx_EC_CP15_64 : Nat := 0x04
def ESR_ELx_EC_CP14_MR : Nat := 0x05
def ESR_ELx_EC_CP14_LS : Nat := 0x06
def ESR_ELx_EC_FP_ASIMD : Nat := 0x07
def ESR_ELx_EC_CP14_64 : Nat := 0x0C
def ESR_ELx_EC_HVC32 : Nat := 0x12
def ESR_ELx_EC_SMC32 : Nat := 0x13
def ESR_ELx_EC_HVC64 : Nat := 0x16
def ESR_ELx_EC_SMC64 : Nat := 0x17
def ESR_ELx_EC_SYS64 : Nat := 0x18
def ESR_ELx_EC_ERET : Nat := 0x1A
def ESR_ELx_EC_IABT_LOW : Nat := 0x20
def ESR_ELx_EC_DABT_LOW : Nat := 0x24
def ESR_ELx_EC_BREAKPT_LOW : Nat := 0x30
def ESR_ELx_EC_SOFTSTP_LOW : Nat := 0x32
def ESR_ELx_EC_WATCHPT_LOW : Nat := 0x34
def ESR_ELx_EC_BKPT32 : Nat := 0x38
def ESR_ELx_EC_BRK64 : Nat := 0x3C
def ESR_ELx_EC_MAX : Nat := 0x3F

/-- HCR_EL2.TSC, bit 19. -/
def HCR_TSC : Nat := 2 ^ 19
/-- HCR_EL2.TGE, bit 27. -/
def HCR_TGE : Nat := 2 ^ 27
/-- HCR_EL2.E2H, bit 34. -/
def HCR_E2H : Nat := 2 ^ 34
/-- CPTR_EL2.TFP, bit 10. -/
def CPTR_EL2_TFP : Nat := 2 ^ 10

def PSR_MODE_MASK : Nat := 0xf
/-- Bitwise complement of PSR_MODE_MASK on a 64-bit register. -/
def PSR_MODE_MASK_NOT64 : Nat := U64 - 16
def PSR_MODE_EL1t : Nat := 0x4
def PSR_MODE_EL1h : Nat := 0x5
def PSR_MODE_EL2t : Nat := 0x8
def PSR_MODE_EL2h : Nat := 0x9

def KVM_EXIT_DEBUG : Nat := 4
def KVM_EXIT_FAIL_ENTRY : Nat := 9
def KVM_EXIT_INTERNAL_ERROR : Nat := 17

def ARM_EXCEPTION_IRQ : Nat := 0
def ARM_EXCEPTION_EL1_SERROR : Nat := 1
def ARM_EXCEPTION_TRAP : Nat := 2
def ARM_EXCEPTION_HYP_GONE : Nat := 0xbadca11

/-- ARM_SERROR_PENDING(x): bit 31 of the raw exception index. -/
def ARM_SERROR_PENDING (x : Nat) : Bool := Nat.testBit x 31

/-- ARM_EXCEPTION_CODE(x): the raw exception index with bit 31 cleared. -/
def ARM_EXCEPTION_CODE (x : Nat) : Nat := x % 2 ^ 31

def EINVAL : Int := 22

/-- Per-vcpu guest state used by this translation unit.  Registers are the
64-bit guest registers; `nested_virt_in_use` and `forward_nv_traps` are the
nested-virtualization predicates of the wider tree, taken as inputs. -/
structure Vcpu where
  pc : Nat
  cpsr : Nat
  reg0 : Nat
  hsr : Nat
  far_el2 : Nat
  elr_el2 : Nat
  spsr_el2 : Nat
  hcr_el2 : Nat
  cptr_el2 : Nat
  nested_virt_in_use : Bool
  forward_nv_traps : Bool
  hvc_exit_stat : Nat
  wfe_exit_stat : Nat
  wfi_exit_stat : Nat
  unhalt_request : Bool
deriving Repr, DecidableEq

/-- The outward-facing `kvm_run` fields this file writes.  `none` models a
field the code has not populated on this exit. -/
structure Run where
  exit_reason : Option Nat
  debug_hsr : Option Nat
  debug_far : Option Nat
deriving Repr, DecidableEq

/-- Identity of an entry of `arm_exit_handlers`. -/
inductive HandlerId where
  | unknown_ec | wfx | cp15_32 | cp15_64 | cp14_32 | cp14_load_store | cp14_64
  | hvc | smc | sys | eret | guest_abort | guest_debug | fpasimd
deriving Repr, DecidableEq

/-- Log entry recording one externally visible side effect. -/
inductive Event where
  | traceHvc (pc arg0 imm : Nat)
  | traceWfx (pc : Nat) (is_wfe : Bool)
  | traceEret (elr spsr : Nat)
  | injectUndefined
  | injectVabt
  | injectNestedSync (esr : Nat)
  | psciCall
  | vcpuOnSpin
  | vcpuBlock
  | clearUnhalt
  | skipInstr (is32 : Bool)
  | extCall (h : HandlerId)
  | logUnknownEc (hsr : Nat)
  | logDebugBadHsr (hsr : Nat)
  | logUnsupportedExit (code : Nat)
deriving Repr, DecidableEq

/-- Vcpu state together with the log of side effects of this exit. -/
structure St where
  vcpu : Vcpu
  events : List Event
deriving Repr, DecidableEq

def emit (st : St) (e : Event) : St :=
  { st with events := st.events ++ [e] }

/-- Oracles for the external collaborators consumed by this file. -/
structure Env where
  cfg_nested_pv : Bool
  psci_call : Vcpu → Int
  handle_hvc_nested : Vcpu → Int
  handle_wfx_nested : Vcpu → Bool → Int
  condition_valid : Vcpu → Bool
  ext_handler : HandlerId → Vcpu → Int

/-- Result of one handler or of `handle_exit`: new state, new run record,
and the C `int` return value. -/
abbrev HRes := St × Run × Int

def kvm_vcpu_get_hsr (v : Vcpu) : Nat := v.hsr

/-- kvm_vcpu_trap_il_is32bit: the ESR_ELx_IL bit (25). -/
def kvm_vcpu_trap_il_is32bit (v : Vcpu) : Bool := Nat.testBit v.hsr 25

/-- kvm_vcpu_hvc_get_imm: low 16 bits of the syndrome. -/
def kvm_vcpu_hvc_get_imm (v : Vcpu) : Nat := v.hsr % 2 ^ 16

def vcpu_mode_el1 (v : Vcpu) : Bool :=
  Nat.land v.cpsr PSR_MODE_MASK == PSR_MODE_EL1t ||
  Nat.land v.cpsr PSR_MODE_MASK == PSR_MODE_EL1h

def vcpu_el2_e2h_is_set (v : Vcpu) : Bool := Nat.land v.hcr_el2 HCR_E2H != 0

def vcpu_el2_tge_is_set (v : Vcpu) : Bool := Nat.land v.hcr_el2 HCR_TGE != 0

/-- Instruction-skip primitive: advances the PC by the trapped instruction's
width (4 for a 32-bit instruction, 2 for 16-bit), wrapping at 2^64. -/
def kvm_skip_instr (st : St) (is32 : Bool) : St :=
  let w := if is32 then 4 else 2
  { st with
    vcpu := { st.vcpu with pc := (st.vcpu.pc + w) % U64 },
    events := st.events ++ [Event.skipInstr is32] }

/-- Fault Injection Port, undefined-instruction kind: mutates pending-fault
state only (recorded as an event), never advances the PC. -/
def kvm_inject_undefined (st : St) : St := emit st Event.injectUndefined

/-- Fault Injection Port, asynchronous-external-abort kind. -/
def kvm_inject_vabt (st : St) : St := emit st Event.injectVabt

/-- Modelled from the spec: the Nested-Forwarding transform synthesizes a
synchronous nested-exception delivery and reports the trap as handled (1).
The synthesizing function lives outside this translation unit. -/
def kvm_inject_nested_sync (st : St) (esr : Nat) : St × Int :=
  (emit st (Event.injectNestedSync esr), 1)

/-- Shared tail of handle_hvc: the PSCI delegation path. -/
def handle_hvc_psci (env : Env) (st : St) (run : Run) : HRes :=
  let st := emit st Event.psciCall
  let ret := env.psci_call st.vcpu
  if ret < 0 then (kvm_inject_undefined st, run, 1)
  else (st, run, ret)

def handle_hvc (env : Env) (st : St) (run : Run) : HRes :=
  let v := st.vcpu
  let st := emit st (Event.traceHvc v.pc v.reg0 (kvm_vcpu_hvc_get_imm v))
  let st := { st with vcpu := { st.vcpu with hvc_exit_stat := st.vcpu.hvc_exit_stat + 1 } }
  if st.vcpu.nested_virt_in_use then
    if env.cfg_nested_pv then
      let ret := env.handle_hvc_nested st.vcpu
      if ret < 0 && ret != -EINVAL then (st, run, ret)
      else if ret >= 0 then (st, run, ret)
      else handle_hvc_psci env st run
    else
      let p := kvm_inject_nested_sync st (kvm_vcpu_get_hsr st.vcpu)
      (p.1, run, p.2)
  else
    handle_hvc_psci env st run

def handle_smc (env : Env) (st : St) (run : Run) : HRes :=
  let v := st.vcpu
  if v.forward_nv_traps && (Nat.land v.hcr_el2 HCR_TSC != 0) then
    let p := kvm_inject_nested_sync st (kvm_vcpu_get_hsr v)
    (p.1, run, p.2)
  else if kvm_vcpu_hvc_get_imm v != 0 then
    (kvm_inject_undefined st, run, 1)
  else
    let st := emit st Event.psciCall
    let ret := env.psci_call st.vcpu
    if ret < 0 then (kvm_inject_undefined st, run, 1)
    else (kvm_skip_instr st (kvm_vcpu_trap_il_is32bit v), run, ret)

def kvm_handle_fpasimd (env : Env) (st : St) (run : Run) : HRes :=
  if Nat.land st.vcpu.cptr_el2 CPTR_EL2_TFP != 0 then
    let p := kvm_inject_nested_sync st (kvm_vcpu_get_hsr st.vcpu)
    (p.1, run, p.2)
  else
    (kvm_inject_undefined st, run, 1)

/-- The non-nested tail of kvm_handle_wfx: trace, bump the statistic, spin
or block, then skip the trapped instruction and return 1. -/
def kvm_handle_wfx_native (st : St) (run : Run) (is_wfe : Bool) : HRes :=
  let st :=
    if is_wfe then
      let st := emit st (Event.traceWfx st.vcpu.pc true)
      let st := { st with vcpu := { st.vcpu with wfe_exit_stat := st.vcpu.wfe_exit_stat + 1 } }
      emit st Event.vcpuOnSpin
    else
      let st := emit st (Event.traceWfx st.vcpu.pc false)
      let st := { st with vcpu := { st.vcpu with wfi_exit_stat := st.vcpu.wfi_exit_stat + 1 } }
      let st := emit st Event.vcpuBlock
      let st := emit st Event.clearUnhalt
      { st with vcpu := { st.vcpu with unhalt_request := false } }
  let st := kvm_skip_instr st (kvm_vcpu_trap_il_is32bit st.vcpu)
  (st, run, 1)

def kvm_handle_wfx (env : Env) (st : St) (run : Run) : HRes :=
  let v := st.vcpu
  let is_wfe := Nat.testBit (kvm_vcpu_get_hsr v) 0
  if v.nested_virt_in_use then
    let ret := env.handle_wfx_nested v is_wfe
    if ret < 0 && ret != -EINVAL then (st, run, ret)
    else if ret >= 0 then (st, run, ret)
    else kvm_handle_wfx_native st run is_wfe
  else
    kvm_handle_wfx_native st run is_wfe

def kvm_handle_guest_debug (env : Env) (st : St) (run : Run) : HRes :=
  let hsr := kvm_vcpu_get_hsr st.vcpu
  let run := { run with exit_reason := some KVM_EXIT_DEBUG, debug_hsr := some hsr }
  let ec := ESR_ELx_EC hsr
  if ec = ESR_ELx_EC_WATCHPT_LOW then
    (st, { run with debug_far := some st.vcpu.far_el2 }, 0)
  else if ec = ESR_ELx_EC_SOFTSTP_LOW ∨ ec = ESR_ELx_EC_BREAKPT_LOW ∨
          ec = ESR_ELx_EC_BKPT32 ∨ ec = ESR_ELx_EC_BRK64 then
    (st, run, 0)
  else
    (emit st (Event.logDebugBadHsr hsr), run, -1)

def kvm_handle_unknown_ec (env : Env) (st : St) (run : Run) : HRes :=
  let hsr := kvm_vcpu_get_hsr st.vcpu
  let st := emit st (Event.logUnknownEc hsr)
  (kvm_inject_undefined st, run, 1)

def kvm_handle_eret (env : Env) (st : St) (run : Run) : HRes :=
  let v := st.vcpu
  let st := emit st (Event.traceEret v.elr_el2 v.spsr_el2)
  if v.forward_nv_traps then
    let p := kvm_inject_nested_sync st (kvm_vcpu_get_hsr v)
    (p.1, run, p.2)
  else
    let st := { st with vcpu := { st.vcpu with pc := st.vcpu.elr_el2 } }
    let st := { st with vcpu := { st.vcpu with cpsr := st.vcpu.spsr_el2 } }
    let st :=
      if vcpu_mode_el1 st.vcpu && vcpu_el2_e2h_is_set st.vcpu &&
         vcpu_el2_tge_is_set st.vcpu then
        let mode := Nat.land st.vcpu.cpsr PSR_MODE_MASK
        let c := Nat.land st.vcpu.cpsr PSR_MODE_MASK_NOT64
        let c := if mode = PSR_MODE_EL1h then Nat.lor c PSR_MODE_EL2h
                 else Nat.lor c PSR_MODE_EL2t
        { st with vcpu := { st.vcpu with cpsr := c } }
      else st
    (st, run, 1)

/-- The exception-class codes given an explicit entry in `arm_exit_handlers`. -/
def assigned_ec_list : List Nat :=
  [ESR_ELx_EC_WFx, ESR_ELx_EC_CP15_32, ESR_ELx_EC_CP15_64, ESR_ELx_EC_CP14_MR,
   ESR_ELx_EC_CP14_LS, ESR_ELx_EC_CP14_64, ESR_ELx_EC_HVC32, ESR_ELx_EC_SMC32,
   ESR_ELx_EC_HVC64, ESR_ELx_EC_SMC64, ESR_ELx_EC_SYS64, ESR_ELx_EC_ERET,
   ESR_ELx_EC_IABT_LOW, ESR_ELx_EC_DABT_LOW, ESR_ELx_EC_SOFTSTP_LOW,
   ESR_ELx_EC_WATCHPT_LOW, ESR_ELx_EC_BREAKPT_LOW, ESR_ELx_EC_BKPT32,
   ESR_ELx_EC_BRK64, ESR_ELx_EC_FP_ASIMD]

/-- arm_exit_handlers: the fixed class-handler table; every code in
0..ESR_ELx_EC_MAX without an explicit designator maps to the
unknown-class handler. -/
def arm_exit_handlers (ec : Nat) : HandlerId :=
  if ec = ESR_ELx_EC_WFx then HandlerId.wfx
  else if ec = ESR_ELx_EC_CP15_32 then HandlerId.cp15_32
  else if ec = ESR_ELx_EC_CP15_64 then HandlerId.cp15_64
  else if ec = ESR_ELx_EC_CP14_MR then HandlerId.cp14_32
  else if ec = ESR_ELx_EC_CP14_LS then HandlerId.cp14_load_store
  else if ec = ESR_ELx_EC_CP14_64 then HandlerId.cp14_64
  else if ec = ESR_ELx_EC_HVC32 then HandlerId.hvc
  else if ec = ESR_ELx_EC_SMC32 then HandlerId.smc
  else if ec = ESR_ELx_EC_HVC64 then HandlerId.hvc
  else if ec = ESR_ELx_EC_SMC64 then HandlerId.smc
  else if ec = ESR_ELx_EC_SYS64 then HandlerId.sys
  else if ec = ESR_ELx_EC_ERET then HandlerId.eret
  else if ec = ESR_ELx_EC_IABT_LOW then HandlerId.guest_abort
  else if ec = ESR_ELx_EC_DABT_LOW then HandlerId.guest_abort
  else if ec = ESR_ELx_EC_SOFTSTP_LOW then HandlerId.guest_debug
  else if ec = ESR_ELx_EC_WATCHPT_LOW then HandlerId.guest_debug
  else if ec = ESR_ELx_EC_BREAKPT_LOW then HandlerId.guest_debug
  else if ec = ESR_ELx_EC_BKPT32 then HandlerId.guest_debug
  else if ec = ESR_ELx_EC_BRK64 then HandlerId.guest_debug
  else if ec = ESR_ELx_EC_FP_ASIMD then HandlerId.fpasimd
  else HandlerId.unknown_ec

def kvm_get_exit_handler (v : Vcpu) : HandlerId :=
  arm_exit_handlers (ESR_ELx_EC (kvm_vcpu_get_hsr v))

/-- Invoke the handler selected from the table.  Handlers not in this
translation unit (coprocessor, system-register, memory-abort) are external
collaborators: their invocation is logged and their result supplied by the
environment oracle. -/
def run_exit_handler (env : Env) (h : HandlerId) (st : St) (run : Run) : HRes :=
  match h with
  | HandlerId.wfx => kvm_handle_wfx env st run
  | HandlerId.hvc => handle_hvc env st run
  | HandlerId.smc => handle_smc env st run
  | HandlerId.guest_debug => kvm_handle_guest_debug env st run
  | HandlerId.fpasimd => kvm_handle_fpasimd env st run
  | HandlerId.eret => kvm_handle_eret env st run
  | HandlerId.unknown_ec => kvm_handle_unknown_ec env st run
  | ext => (emit st (Event.extCall ext), run, env.ext_handler ext st.vcpu)

/-- Top-level exit dispatch, `handle_exit`. -/
def handle_exit (env : Env) (st : St) (run : Run) (exception_index : Nat) : HRes :=
  if ARM_SERROR_PENDING exception_index then
    let hsr_ec := ESR_ELx_EC (kvm_vcpu_get_hsr st.vcpu)
    let st :=
      if hsr_ec = ESR_ELx_EC_HVC32 ∨ hsr_ec = ESR_ELx_EC_HVC64 ∨
         hsr_ec = ESR_ELx_EC_SMC32 ∨ hsr_ec = ESR_ELx_EC_SMC64 then
        let adj := if kvm_vcpu_trap_il_is32bit st.vcpu then 4 else 2
        { st with vcpu := { st.vcpu with pc := (st.vcpu.pc + U64 - adj) % U64 } }
      else st
    (kvm_inject_vabt st, run, 1)
  else
    let code := ARM_EXCEPTION_CODE exception_index
    if code = ARM_EXCEPTION_IRQ then (st, run, 1)
    else if code = ARM_EXCEPTION_EL1_SERROR then (kvm_inject_vabt st, run, 1)
    else if code = ARM_EXCEPTION_TRAP then
      if !(env.condition_valid st.vcpu) then
        (kvm_skip_instr st (kvm_vcpu_trap_il_is32bit st.vcpu), run, 1)
      else
        run_exit_handler env (kvm_get_exit_handler st.vcpu) st run
    else if code = ARM_EXCEPTION_HYP_GONE then
      (st, { run with exit_reason := some KVM_EXIT_FAIL_ENTRY }, 0)
    else
      (emit st (Event.logUnsupportedExit code),
       { run with exit_reason := some KVM_EXIT_INTERNAL_ERROR }, 0)

/- Concrete fixtures used by witnesses and counterexamples. -/

def run0 : Run := { exit_reason := none, debug_hsr := none, debug_far := none }

def vcpu0 : Vcpu :=
  { pc := 0x1000, cpsr := 0, reg0 := 0, hsr := 0, far_el2 := 0, elr_el2 := 0,
    spsr_el2 := 0, hcr_el2 := 0, cptr_el2 := 0, nested_virt_in_use := false,
    forward_nv_traps := false, hvc_exit_stat := 0, wfe_exit_stat := 0,
    wfi_exit_stat := 0, unhalt_request := true }

def env0 : Env :=
  { cfg_nested_pv := false, psci_call := fun _ => 0,
    handle_hvc_nested := fun _ => 0, handle_wfx_nested := fun _ _ => -EINVAL,
    condition_valid := fun _ => true, ext_handler := fun _ _ => 1 }

/-- Environment whose condition-code check reports the trapped instruction's
condition as failed. -/
def envCF : Env := { env0 with condition_valid := fun _ => false }

/-- Environment whose nested wait-instruction helper consumes the trap
(returns 0, an exit to userspace). -/
def envW0 : Env := { env0 with handle_wfx_nested := fun _ _ => 0 }

def stC1 : St :=
  { vcpu := { vcpu0 with hsr := ESR_ELx_EC_HVC64 * 2 ^ 26 + 2 ^ 25 }, events := [] }

def stC2 : St :=
  { vcpu := { vcpu0 with hsr := ESR_ELx_EC_SYS64 * 2 ^ 26 }, events := [] }

/- Arithmetic helper lemmas. -/

theorem sub_mod_u64 (p a : Nat) (h1 : p < U64) (h2 : a ≤ p) :
    (p + U64 - a) % U64 = p - a := by
  unfold U64 at *
  omega

theorem add_mod_u64 (p a : Nat) (h : p + a < U64) : (p + a) % U64 = p + a := by
  exact Nat.mod_eq_of_lt h

/-- The low four bits of `(s & ~PSR_MODE_MASK) | m` are exactly `m`, for any
mode value `m` fitting the mask. -/
theorem mode_bits (s m : Nat) (hm : m < 16) :
    Nat.land (Nat.lor (Nat.land s PSR_MODE_MASK_NOT64) m) PSR_MODE_MASK = m := by
  have hland : ∀ a b : Nat, Nat.land a b = a &&& b := fun _ _ => rfl
  have hlor : ∀ a b : Nat, Nat.lor a b = a ||| b := fun _ _ => rfl
  have k0 : Nat.testBit 18446744073709551600 0 = false := by decide
  have k1 : Nat.testBit 18446744073709551600 1 = false := by decide
  have k2 : Nat.testBit 18446744073709551600 2 = false := by decide
  have k3 : Nat.testBit 18446744073709551600 3 = false := by decide
  have t0 : Nat.testBit 15 0 = true := by decide
  have t1 : Nat.testBit 15 1 = true := by decide
  have t2 : Nat.testBit 15 2 = true := by decide
  have t3 : Nat.testBit 15 3 = true := by decide
  unfold PSR_MODE_MASK PSR_MODE_MASK_NOT64 U64
  rw [hland, hlor, hland]
  apply Nat.eq_of_testBit_eq
  intro i
  rcases Nat.lt_or_ge i 4 with hi | hi
  · interval_cases i <;>
      simp [Nat.testBit_and, Nat.testBit_or, k0, k1, k2, k3, t0, t1, t2, t3]
  · have hpow : (2 : Nat) ^ 4 ≤ 2 ^ i := Nat.pow_le_pow_right (by norm_num) hi
    have h15 : Nat.testBit 15 i = false :=
      Nat.testBit_lt_two_pow (lt_of_lt_of_le (by norm_num) hpow)
    have hm2 : Nat.testBit m i = false :=
      Nat.testBit_lt_two_pow (lt_of_lt_of_le hm hpow)
    simp [Nat.testBit_and, Nat.testBit_or, h15, hm2]

/-- C1: on an exit whose raw exception index carries the pending-SError flag,
handle_exit injects an asynchronous external abort and returns 1; the guest
PC is rolled back by the trapped instruction's width (4 if the IL flag says
32-bit, else 2) exactly when the syndrome class is one of HVC32, HVC64,
SMC32, SMC64, and is unchanged for every other class. -/
theorem C1_serror_pending_rollback (env : Env) (st : St) (run : Run)
    (idx : Nat) (hs : Nat.testBit idx 31 = true)
    (hpc : st.vcpu.pc < U64) (hpc4 : 4 ≤ st.vcpu.pc) :
    handle_exit env st run idx =
      ({ st with
         vcpu := { st.vcpu with pc :=
           if (ESR_ELx_EC st.vcpu.hsr = ESR_ELx_EC_HVC32 ∨
               ESR_ELx_EC st.vcpu.hsr = ESR_ELx_EC_HVC64 ∨
               ESR_ELx_EC st.vcpu.hsr = ESR_ELx_EC_SMC32 ∨
               ESR_ELx_EC st.vcpu.hsr = ESR_ELx_EC_SMC64) then
             st.vcpu.pc - (if kvm_vcpu_trap_il_is32bit st.vcpu then 4 else 2)
           else st.vcpu.pc },
         events := st.events ++ [Event.injectVabt] }, run, 1) := by
  have e2 := sub_mod_u64 st.vcpu.pc 2 hpc (le_trans (by norm_num) hpc4)
  have e4 := sub_mod_u64 st.vcpu.pc 4 hpc hpc4
  by_cases hclass : ESR_ELx_EC st.vcpu.hsr = ESR_ELx_EC_HVC32 ∨
      ESR_ELx_EC st.vcpu.hsr = ESR_ELx_EC_HVC64 ∨
      ESR_ELx_EC st.vcpu.hsr = ESR_ELx_EC_SMC32 ∨
      ESR_ELx_EC st.vcpu.hsr = ESR_ELx_EC_SMC64
  · cases h32 : kvm_vcpu_trap_il_is32bit st.vcpu <;>
      simp [handle_exit, ARM_SERROR_PENDING, hs, hclass, h32, kvm_inject_vabt,
            emit, kvm_vcpu_get_hsr, e2, e4]
  · simp [handle_exit, ARM_SERROR_PENDING, hs, hclass, kvm_inject_vabt, emit,
          kvm_vcpu_get_hsr]

/-- C1 witness: concrete SError-flagged exit with an HVC64 syndrome and a
32-bit instruction; the PC rolls back by 4. -/
theorem C1_serror_pending_rollback_witness :
    Nat.testBit 2147483650 31 = true ∧ stC1.vcpu.pc < U64 ∧ 4 ≤ stC1.vcpu.pc ∧
    handle_exit env0 stC1 run0 2147483650 =
      ({ stC1 with
         vcpu := { stC1.vcpu with pc :=
           if (ESR_ELx_EC stC1.vcpu.hsr = ESR_ELx_EC_HVC32 ∨
               ESR_ELx_EC stC1.vcpu.hsr = ESR_ELx_EC_HVC64 ∨
               ESR_ELx_EC stC1.vcpu.hsr = ESR_ELx_EC_SMC32 ∨
               ESR_ELx_EC stC1.vcpu.hsr = ESR_ELx_EC_SMC64) then
             stC1.vcpu.pc - (if kvm_vcpu_trap_il_is32bit stC1.vcpu then 4 else 2)
           else stC1.vcpu.pc },
         events := stC1.events ++ [Event.injectVabt] }, run0, 1) :=
  ⟨by decide, by decide, by decide,
   C1_serror_pending_rollback env0 stC1 run0 2147483650 (by decide) (by decide)
     (by decide)⟩

/-- C2: an ordinary-trap exit (no pending SError) whose trapped instruction
fails its condition check is resumed (return 1) with the PC advanced by
exactly the instruction's width via the instruction-skip primitive; no class
handler runs (the only event of the exit is the skip), for every exception
class. -/
theorem C2_cond_check_false_skip (env : Env) (st : St) (run : Run) (idx : Nat)
    (h31 : Nat.testBit idx 31 = false)
    (hc : ARM_EXCEPTION_CODE idx = ARM_EXCEPTION_TRAP)
    (hv : env.condition_valid st.vcpu = false)
    (hpc : st.vcpu.pc + 4 < U64) :
    handle_exit env st run idx =
      ({ st with
         vcpu := { st.vcpu with pc :=
           st.vcpu.pc + (if kvm_vcpu_trap_il_is32bit st.vcpu then 4 else 2) },
         events := st.events ++
           [Event.skipInstr (kvm_vcpu_trap_il_is32bit st.vcpu)] }, run, 1) := by
  have e4 := add_mod_u64 st.vcpu.pc 4 hpc
  have e2 := add_mod_u64 st.vcpu.pc 2 (by omega)
  cases h32 : kvm_vcpu_trap_il_is32bit st.vcpu <;>
    simp [handle_exit, ARM_SERROR_PENDING, h31, hc, ARM_EXCEPTION_IRQ,
          ARM_EXCEPTION_EL1_SERROR, ARM_EXCEPTION_TRAP, hv, kvm_skip_instr,
          h32, e2, e4]

/-- C2 witness: a condition-failed SYS64-class trap is skipped by 4 bytes
and resumed. -/
theorem C2_cond_check_false_skip_witness :
    Nat.testBit 2 31 = false ∧ ARM_EXCEPTION_CODE 2 = ARM_EXCEPTION_TRAP ∧
    envCF.condition_valid stC2.vcpu = false ∧ stC2.vcpu.pc + 4 < U64 ∧
    handle_exit envCF stC2 run0 2 =
      ({ stC2 with
         vcpu := { stC2.vcpu with pc :=
           stC2.vcpu.pc + (if kvm_vcpu_trap_il_is32bit stC2.vcpu then 4 else 2) },
         events := stC2.events ++
           [Event.skipInstr (kvm_vcpu_trap_il_is32bit stC2.vcpu)] }, run0, 1) :=
  ⟨by decide, by decide, by decide, by decide,
   C2_cond_check_false_skip envCF stC2 run0 2 (by decide) (by decide) (by decide)
     (by decide)⟩

/-- C3 counterexample input: an SMC trap with non-zero immediate that the
nested-forwarding branch captures first (forward_nv_traps set and
HCR_EL2.TSC set). -/
def stSMCf : St :=
  { vcpu :=
      { vcpu0 with
        forward_nv_traps := true
        hcr_el2 := HCR_TSC
        hsr := ESR_ELx_EC_SMC64 * 2 ^ 26 + 1 },
    events := [] }

/-- An SMC trap with non-zero immediate and no nested forwarding. -/
def stSMCu : St :=
  { vcpu := { vcpu0 with hsr := ESR_ELx_EC_SMC64 * 2 ^ 26 + 1 }, events := [] }

/-- C3 counterexample: with forward_nv_traps and HCR_EL2.TSC set, an SMC
whose immediate is non-zero is forwarded to the virtual EL2 and no
UndefinedInstruction fault is injected, refuting "always injects
UndefinedInstruction". -/
theorem C3_forwarded_smc_counterexample :
    kvm_vcpu_hvc_get_imm stSMCf.vcpu ≠ 0 ∧
    handle_smc env0 stSMCf run0 =
      (emit stSMCf (Event.injectNestedSync stSMCf.vcpu.hsr), run0, 1) ∧
    Event.injectUndefined ∉ (handle_smc env0 stSMCf run0).1.events := by
  refine ⟨by decide, by decide, by decide⟩

/-- C3 (amended): for every SMC trap with non-zero syndrome immediate the
firmware/power-call service is never invoked on that exit, and — provided
the trap is not captured first by the nested-forward branch
(forward_nv_traps with HCR_EL2.TSC) — the handler injects an
UndefinedInstruction fault and returns 1. -/
theorem C3_smc_nonzero_imm (env : Env) (st : St) (run : Run)
    (him : kvm_vcpu_hvc_get_imm st.vcpu ≠ 0) :
    (∀ e ∈ (handle_smc env st run).1.events,
        e ∈ st.events ∨ e = Event.injectUndefined ∨
        e = Event.injectNestedSync st.vcpu.hsr) ∧
    (¬(st.vcpu.forward_nv_traps = true ∧ Nat.land st.vcpu.hcr_el2 HCR_TSC ≠ 0) →
        handle_smc env st run = (kvm_inject_undefined st, run, 1)) := by
  have him' : (kvm_vcpu_hvc_get_imm st.vcpu != 0) = true := bne_iff_ne.mpr him
  by_cases hf : st.vcpu.forward_nv_traps = true ∧
      Nat.land st.vcpu.hcr_el2 HCR_TSC ≠ 0
  · have hfb : (st.vcpu.forward_nv_traps &&
        (Nat.land st.vcpu.hcr_el2 HCR_TSC != 0)) = true := by
      simp [hf.1, bne_iff_ne.mpr hf.2]
    constructor
    · intro e he
      simp [handle_smc, hfb, kvm_inject_nested_sync, emit, kvm_vcpu_get_hsr] at he
      rcases he with he | he
      · exact Or.inl he
      · exact Or.inr (Or.inr he)
    · intro hcon
      exact absurd hf hcon
  · have hfb : (st.vcpu.forward_nv_traps &&
        (Nat.land st.vcpu.hcr_el2 HCR_TSC != 0)) = false := by
      cases hft : st.vcpu.forward_nv_traps
      · simp
      · have hz : Nat.land st.vcpu.hcr_el2 HCR_TSC = 0 := by
          by_contra hne
          exact hf ⟨hft, hne⟩
        simp [hz]
    constructor
    · intro e he
      simp [handle_smc, hfb, him', kvm_inject_undefined, emit] at he
      rcases he with he | he
      · exact Or.inl he
      · exact Or.inr (Or.inl he)
    · intro _
      simp [handle_smc, hfb, him', kvm_inject_undefined, emit]

/-- C3 witness: a non-forwarded SMC with immediate 1 injects
UndefinedInstruction and returns 1, without calling the firmware service. -/
theorem C3_smc_nonzero_imm_witness :
    kvm_vcpu_hvc_get_imm stSMCu.vcpu ≠ 0 ∧
    ¬(stSMCu.vcpu.forward_nv_traps = true ∧
        Nat.land stSMCu.vcpu.hcr_el2 HCR_TSC ≠ 0) ∧
    handle_smc env0 stSMCu run0 = (kvm_inject_undefined stSMCu, run0, 1) :=
  ⟨by decide, by decide,
   (C3_smc_nonzero_imm env0 stSMCu run0 (by decide)).2 (by decide)⟩

/-- C4 counterexample: on an SMC exit the per-vcpu call-exit statistic is not
incremented and no trace event is emitted (the only event of the exit is the
UndefinedInstruction injection), refuting "both variants increment ... and
emit a trace event". -/
theorem C4_smc_no_stat_counterexample :
    ¬((handle_smc env0 stSMCu run0).1.vcpu.hvc_exit_stat =
        stSMCu.vcpu.hvc_exit_stat + 1) ∧
    (handle_smc env0 stSMCu run0).1.events = [Event.injectUndefined] := by
  refine ⟨by decide, by decide⟩

/-- Recognizer for the privileged-call trace event. -/
def is_hvc_trace : Event → Bool := fun e =>
  match e with
  | Event.traceHvc _ _ _ => true
  | _ => false

/-- C4 (amended): the HVC handler increments the per-vcpu call-exit
statistic and emits the trace event with the call's PC, first argument
register and immediate on every path; the SMC handler never changes that
statistic and emits no trace event (the number of trace events in the log
is unchanged by it). -/
theorem C4_hvc_stat_and_trace (env : Env) (st : St) (run : Run) :
    (handle_hvc env st run).1.vcpu.hvc_exit_stat = st.vcpu.hvc_exit_stat + 1 ∧
    Event.traceHvc st.vcpu.pc st.vcpu.reg0 (kvm_vcpu_hvc_get_imm st.vcpu) ∈
      (handle_hvc env st run).1.events ∧
    (handle_smc env st run).1.vcpu.hvc_exit_stat = st.vcpu.hvc_exit_stat ∧
    (handle_smc env st run).1.events.countP is_hvc_trace =
      st.events.countP is_hvc_trace := by
  refine ⟨?_, ?_, ?_, ?_⟩ <;>
  · simp only [handle_hvc, handle_smc, handle_hvc_psci, emit,
               kvm_inject_undefined, kvm_inject_nested_sync, kvm_skip_instr,
               kvm_vcpu_get_hsr]
    split_ifs <;> simp [List.mem_append, List.countP_append, is_hvc_trace]

/-- C5 counterexample input: nested virtualization inactive but the emulated
CPTR_EL2.TFP bit set. -/
def stFPf : St :=
  { vcpu :=
      { vcpu0 with
        cptr_el2 := CPTR_EL2_TFP
        hsr := ESR_ELx_EC_FP_ASIMD * 2 ^ 26 },
    events := [] }

/-- An FP/ASIMD trap state with CPTR_EL2.TFP clear. -/
def stFPu : St :=
  { vcpu := { vcpu0 with hsr := ESR_ELx_EC_FP_ASIMD * 2 ^ 26 }, events := [] }

/-- C5 counterexample: with nested virtualization inactive but CPTR_EL2.TFP
set, the FP/ASIMD handler forwards a nested exception instead of injecting
UndefinedInstruction, refuting the "iff nested virtualization is active and
TFP" condition. -/
theorem C5_fpasimd_counterexample :
    stFPf.vcpu.nested_virt_in_use = false ∧
    kvm_handle_fpasimd env0 stFPf run0 =
      (emit stFPf (Event.injectNestedSync stFPf.vcpu.hsr), run0, 1) ∧
    Event.injectUndefined ∉ (kvm_handle_fpasimd env0 stFPf run0).1.events := by
  refine ⟨by decide, by decide, by decide⟩

/-- C5 (amended): the FP/ASIMD handler forwards the trap as a synchronous
nested exception if and only if the emulated CPTR_EL2.TFP bit is set — it
does not consult the nested-active flag — and otherwise injects
UndefinedInstruction and returns 1. -/
theorem C5_fpasimd_tfp (env : Env) (st : St) (run : Run) :
    (Nat.land st.vcpu.cptr_el2 CPTR_EL2_TFP ≠ 0 →
      kvm_handle_fpasimd env st run =
        (emit st (Event.injectNestedSync st.vcpu.hsr), run, 1)) ∧
    (Nat.land st.vcpu.cptr_el2 CPTR_EL2_TFP = 0 →
      kvm_handle_fpasimd env st run = (kvm_inject_undefined st, run, 1)) := by
  constructor
  · intro h
    simp [kvm_handle_fpasimd, bne_iff_ne.mpr h, kvm_inject_nested_sync,
          kvm_vcpu_get_hsr]
  · intro h
    simp [kvm_handle_fpasimd, h]

/-- C5 witness: with TFP clear the handler injects UndefinedInstruction. -/
theorem C5_fpasimd_tfp_witness :
    Nat.land stFPu.vcpu.cptr_el2 CPTR_EL2_TFP = 0 ∧
    kvm_handle_fpasimd env0 stFPu run0 = (kvm_inject_undefined stFPu, run0, 1) :=
  ⟨by decide, (C5_fpasimd_tfp env0 stFPu run0).2 (by decide)⟩

/-- C6 counterexample input: a WFI trap on a vcpu with nested virtualization
in use, whose nested wait helper consumes the trap. -/
def stWFIn : St :=
  { vcpu :=
      { vcpu0 with
        nested_virt_in_use := true
        hsr := ESR_ELx_EC_WFx * 2 ^ 26 },
    events := [] }

/-- A WFE trap (syndrome bit 0 set) without nested virtualization. -/
def stWFE : St :=
  { vcpu := { vcpu0 with hsr := ESR_ELx_EC_WFx * 2 ^ 26 + 1 }, events := [] }

/-- C6 counterexample: with nested virtualization in use and the nested
helper consuming the trap (returning 0), the wait handler returns 0 — not
Resume — and neither counter is incremented nor the instruction skipped,
refuting the universal claim. -/
theorem C6_wfx_nested_counterexample :
    kvm_handle_wfx envW0 stWFIn run0 = (stWFIn, run0, 0) ∧
    (kvm_handle_wfx envW0 stWFIn run0).2.2 ≠ 1 := by
  refine ⟨by decide, by decide⟩

/-- C6 (amended): provided the trap is not consumed by the nested-specific
helper (nested virtualization inactive, or the helper returns -EINVAL), a
WFE trap returns 1 after bumping the spin counter and a WFI trap returns 1
after bumping the block counter and clearing the unhalt-request flag exactly
once; in both cases the trapped instruction is skipped before returning. -/
theorem C6_wfx_native (env : Env) (st : St) (run : Run)
    (h : st.vcpu.nested_virt_in_use = false ∨
         env.handle_wfx_nested st.vcpu (Nat.testBit st.vcpu.hsr 0) = -EINVAL) :
    kvm_handle_wfx env st run =
      (if Nat.testBit st.vcpu.hsr 0 then
        ({ st with
           vcpu := { st.vcpu with
             pc := (st.vcpu.pc +
               (if kvm_vcpu_trap_il_is32bit st.vcpu then 4 else 2)) % U64,
             wfe_exit_stat := st.vcpu.wfe_exit_stat + 1 },
           events := st.events ++
             [Event.traceWfx st.vcpu.pc true, Event.vcpuOnSpin,
              Event.skipInstr (kvm_vcpu_trap_il_is32bit st.vcpu)] }, run, 1)
      else
        ({ st with
           vcpu := { st.vcpu with
             pc := (st.vcpu.pc +
               (if kvm_vcpu_trap_il_is32bit st.vcpu then 4 else 2)) % U64,
             wfi_exit_stat := st.vcpu.wfi_exit_stat + 1,
             unhalt_request := false },
           events := st.events ++
             [Event.traceWfx st.vcpu.pc false, Event.vcpuBlock,
              Event.clearUnhalt,
              Event.skipInstr (kvm_vcpu_trap_il_is32bit st.vcpu)] }, run, 1)) := by
  cases hw : Nat.testBit st.vcpu.hsr 0 <;>
    cases h32 : kvm_vcpu_trap_il_is32bit st.vcpu <;>
      cases hn : st.vcpu.nested_virt_in_use <;>
        rcases h with h | h <;>
          simp_all [kvm_handle_wfx, kvm_handle_wfx_native, kvm_skip_instr,
                    emit, kvm_vcpu_get_hsr, kvm_vcpu_trap_il_is32bit, EINVAL]

/-- C6 witness: a WFE trap without nested virtualization spins, skips and
returns 1. -/
theorem C6_wfx_native_witness :
    stWFE.vcpu.nested_virt_in_use = false ∧
    kvm_handle_wfx env0 stWFE run0 =
      (if Nat.testBit stWFE.vcpu.hsr 0 then
        ({ stWFE with
           vcpu := { stWFE.vcpu with
             pc := (stWFE.vcpu.pc +
               (if kvm_vcpu_trap_il_is32bit stWFE.vcpu then 4 else 2)) % U64,
             wfe_exit_stat := stWFE.vcpu.wfe_exit_stat + 1 },
           events := stWFE.events ++
             [Event.traceWfx stWFE.vcpu.pc true, Event.vcpuOnSpin,
              Event.skipInstr (kvm_vcpu_trap_il_is32bit stWFE.vcpu)] }, run0, 1)
      else
        ({ stWFE with
           vcpu := { stWFE.vcpu with
             pc := (stWFE.vcpu.pc +
               (if kvm_vcpu_trap_il_is32bit stWFE.vcpu then 4 else 2)) % U64,
             wfi_exit_stat := stWFE.vcpu.wfi_exit_stat + 1,
             unhalt_request := false },
           events := stWFE.events ++
             [Event.traceWfx stWFE.vcpu.pc false, Event.vcpuBlock,
              Event.clearUnhalt,
              Event.skipInstr (kvm_vcpu_trap_il_is32bit stWFE.vcpu)] }, run0, 1)) :=
  ⟨by decide, C6_wfx_native env0 stWFE run0 (Or.inl (by decide))⟩

/-- An ERET trap state: virtual-EL2 return with E2H and TGE set and a saved
status targeting EL1h. -/
def stERET : St :=
  { vcpu :=
      { vcpu0 with
        elr_el2 := 0x2000
        spsr_el2 := PSR_MODE_EL1h
        hcr_el2 := HCR_E2H + HCR_TGE },
    events := [] }

/-- A state whose syndrome has exception class 0 (no assigned handler, and
not a debug class). -/
def stU : St := { vcpu := vcpu0, events := [] }

/-- C7: for every ERET trap with the nested "trap returns" control clear,
the handler restores PC from ELR_EL2 and returns 1; when the virtual
HCR_EL2 has E2H and TGE set, a restored status whose mode is EL1h leaves
the final mode bits at EL2h, and one whose mode is EL1t leaves them at
EL2t. -/
theorem C7_eret_mode_fixup (env : Env) (st : St) (run : Run)
    (hf : st.vcpu.forward_nv_traps = false) :
    (kvm_handle_eret env st run).2.2 = 1 ∧
    (kvm_handle_eret env st run).1.vcpu.pc = st.vcpu.elr_el2 ∧
    (Nat.land st.vcpu.hcr_el2 HCR_E2H ≠ 0 →
     Nat.land st.vcpu.hcr_el2 HCR_TGE ≠ 0 →
      (Nat.land st.vcpu.spsr_el2 PSR_MODE_MASK = PSR_MODE_EL1h →
        Nat.land (kvm_handle_eret env st run).1.vcpu.cpsr PSR_MODE_MASK =
          PSR_MODE_EL2h) ∧
      (Nat.land st.vcpu.spsr_el2 PSR_MODE_MASK = PSR_MODE_EL1t →
        Nat.land (kvm_handle_eret env st run).1.vcpu.cpsr PSR_MODE_MASK =
          PSR_MODE_EL2t)) := by
  have h9 := mode_bits st.vcpu.spsr_el2 9 (by norm_num)
  have h8 := mode_bits st.vcpu.spsr_el2 8 (by norm_num)
  refine ⟨?_, ?_, ?_⟩
  · simp only [kvm_handle_eret, hf, Bool.false_eq_true, if_false, emit]
  · simp only [kvm_handle_eret, hf, Bool.false_eq_true, if_false, emit]
    split <;> rfl
  · intro he2h htge
    constructor <;> intro hm <;>
      simp [kvm_handle_eret, hf, vcpu_mode_el1, vcpu_el2_e2h_is_set,
            vcpu_el2_tge_is_set, emit, kvm_vcpu_get_hsr, hm,
            bne_iff_ne.mpr he2h, bne_iff_ne.mpr htge, h9, h8,
            PSR_MODE_EL1h, PSR_MODE_EL1t, PSR_MODE_EL2h, PSR_MODE_EL2t]

/-- C7 witness: a concrete trap-returns-clear ERET with SPSR_EL2 mode EL1h
under E2H and TGE returns 1, restores PC = ELR_EL2, and lands in EL2h. -/
theorem C7_eret_mode_fixup_witness :
    stERET.vcpu.forward_nv_traps = false ∧
    ((kvm_handle_eret env0 stERET run0).2.2 = 1 ∧
     (kvm_handle_eret env0 stERET run0).1.vcpu.pc = stERET.vcpu.elr_el2 ∧
     (Nat.land stERET.vcpu.hcr_el2 HCR_E2H ≠ 0 →
      Nat.land stERET.vcpu.hcr_el2 HCR_TGE ≠ 0 →
       (Nat.land stERET.vcpu.spsr_el2 PSR_MODE_MASK = PSR_MODE_EL1h →
         Nat.land (kvm_handle_eret env0 stERET run0).1.vcpu.cpsr PSR_MODE_MASK =
           PSR_MODE_EL2h) ∧
       (Nat.land stERET.vcpu.spsr_el2 PSR_MODE_MASK = PSR_MODE_EL1t →
         Nat.land (kvm_handle_eret env0 stERET run0).1.vcpu.cpsr PSR_MODE_MASK =
           PSR_MODE_EL2t))) :=
  ⟨by decide, C7_eret_mode_fixup env0 stERET run0 (by decide)⟩

/-- Every class code below 64 without an explicit designator in the exit
table maps to the unknown-class handler. -/
theorem arm_exit_handlers_default :
    ∀ ec : Fin 64, ¬ (ec : Nat) ∈ assigned_ec_list →
      arm_exit_handlers (ec : Nat) = HandlerId.unknown_ec := by decide

/-- C8: every exception-class code in 0..ESR_ELx_EC_MAX without an explicit
entry in arm_exit_handlers resolves to the unknown-class handler, which logs
the class, injects UndefinedInstruction, and returns 1. -/
theorem C8_unknown_ec_default (env : Env) (st : St) (run : Run) (ec : Nat)
    (h1 : ec ≤ ESR_ELx_EC_MAX) (h2 : ec ∉ assigned_ec_list) :
    arm_exit_handlers ec = HandlerId.unknown_ec ∧
    run_exit_handler env HandlerId.unknown_ec st run =
      (kvm_inject_undefined (emit st (Event.logUnknownEc st.vcpu.hsr)), run, 1) := by
  constructor
  · have hlt : ec < 64 := by
      have hmax : ESR_ELx_EC_MAX = 63 := by norm_num [ESR_ELx_EC_MAX]
      omega
    exact arm_exit_handlers_default ⟨ec, hlt⟩ h2
  · rfl

/-- C8 witness: class code 2 has no assigned handler; the unknown-class
handler injects UndefinedInstruction and returns 1. -/
theorem C8_unknown_ec_default_witness :
    (2 : Nat) ≤ ESR_ELx_EC_MAX ∧ (2 : Nat) ∉ assigned_ec_list ∧
    (arm_exit_handlers 2 = HandlerId.unknown_ec ∧
     run_exit_handler env0 HandlerId.unknown_ec stU run0 =
       (kvm_inject_undefined (emit stU (Event.logUnknownEc stU.vcpu.hsr)),
        run0, 1)) :=
  ⟨by decide, by decide,
   C8_unknown_ec_default env0 stU run0 2 (by decide) (by decide)⟩

/-- A watchpoint trap whose recorded fault address is 0x1000. -/
def stWP : St :=
  { vcpu :=
      { vcpu0 with
        hsr := ESR_ELx_EC_WATCHPT_LOW * 2 ^ 26
        far_el2 := 0x1000 },
    events := [] }

/-- C9: a watchpoint-class trap with fault address 0x1000 yields return 0
with exit reason Debug, the raw syndrome in the debug record, and fault
address 0x1000; for the four other debug classes the fault-address field is
left unpopulated. -/
theorem C9_watchpoint_debug (env : Env) (st : St) (run : Run) :
    (ESR_ELx_EC st.vcpu.hsr = ESR_ELx_EC_WATCHPT_LOW → st.vcpu.far_el2 = 0x1000 →
      kvm_handle_guest_debug env st run =
        (st, { run with exit_reason := some KVM_EXIT_DEBUG,
                        debug_hsr := some st.vcpu.hsr,
                        debug_far := some 0x1000 }, 0)) ∧
    (ESR_ELx_EC st.vcpu.hsr = ESR_ELx_EC_SOFTSTP_LOW ∨
     ESR_ELx_EC st.vcpu.hsr = ESR_ELx_EC_BREAKPT_LOW ∨
     ESR_ELx_EC st.vcpu.hsr = ESR_ELx_EC_BKPT32 ∨
     ESR_ELx_EC st.vcpu.hsr = ESR_ELx_EC_BRK64 →
      kvm_handle_guest_debug env st run =
        (st, { run with exit_reason := some KVM_EXIT_DEBUG,
                        debug_hsr := some st.vcpu.hsr }, 0)) := by
  constructor
  · intro hec hfar
    simp [kvm_handle_guest_debug, kvm_vcpu_get_hsr, hec, hfar]
  · intro hec
    rcases hec with h | h | h | h <;>
      simp [kvm_handle_guest_debug, kvm_vcpu_get_hsr, h, ESR_ELx_EC_SOFTSTP_LOW,
            ESR_ELx_EC_WATCHPT_LOW, ESR_ELx_EC_BREAKPT_LOW, ESR_ELx_EC_BKPT32,
            ESR_ELx_EC_BRK64]

/-- C9 witness: a concrete watchpoint trap at fault address 0x1000. -/
theorem C9_watchpoint_debug_witness :
    ESR_ELx_EC stWP.vcpu.hsr = ESR_ELx_EC_WATCHPT_LOW ∧
    stWP.vcpu.far_el2 = 0x1000 ∧
    kvm_handle_guest_debug env0 stWP run0 =
      (stWP, { run0 with exit_reason := some KVM_EXIT_DEBUG,
                         debug_hsr := some stWP.vcpu.hsr,
                         debug_far := some 0x1000 }, 0) :=
  ⟨by decide, by decide,
   (C9_watchpoint_debug env0 stWP run0).1 (by decide) (by decide)⟩

/-- C10: a non-debug class reaching the debug handler returns -1, but the
run structure has already been mutated: exit reason Debug and the raw
syndrome are stored before the class is examined. -/
theorem C10_debug_default_mutates_run (env : Env) (st : St) (run : Run)
    (h1 : ESR_ELx_EC st.vcpu.hsr ≠ ESR_ELx_EC_WATCHPT_LOW)
    (h2 : ESR_ELx_EC st.vcpu.hsr ≠ ESR_ELx_EC_SOFTSTP_LOW)
    (h3 : ESR_ELx_EC st.vcpu.hsr ≠ ESR_ELx_EC_BREAKPT_LOW)
    (h4 : ESR_ELx_EC st.vcpu.hsr ≠ ESR_ELx_EC_BKPT32)
    (h5 : ESR_ELx_EC st.vcpu.hsr ≠ ESR_ELx_EC_BRK64) :
    kvm_handle_guest_debug env st run =
      (emit st (Event.logDebugBadHsr st.vcpu.hsr),
       { run with exit_reason := some KVM_EXIT_DEBUG,
                  debug_hsr := some st.vcpu.hsr }, -1) := by
  simp [kvm_handle_guest_debug, kvm_vcpu_get_hsr, h1, h2, h3, h4, h5, emit]

/-- C10 witness: class 0 reaching the debug handler returns -1 with the run
record already holding exit reason Debug and the syndrome. -/
theorem C10_debug_default_mutates_run_witness :
    ESR_ELx_EC stU.vcpu.hsr ≠ ESR_ELx_EC_WATCHPT_LOW ∧
    kvm_handle_guest_debug env0 stU run0 =
      (emit stU (Event.logDebugBadHsr stU.vcpu.hsr),
       { run0 with exit_reason := some KVM_EXIT_DEBUG,
                   debug_hsr := some stU.vcpu.hsr }, -1) :=
  ⟨by decide,
   C10_debug_default_mutates_run env0 stU run0 (by decide) (by decide)
     (by decide) (by decide) (by decide)⟩

end HandleExit
